import Mathlib

/-
Verification of saf-python (src/browser.py): a Flask application running on
Android that browses a Storage Access Framework document tree.  The Android
platform calls (DocumentsContract, DocumentFile, ContentResolver,
SharedPreferences, Activity) are external collaborators; they are modelled as
explicit parameters (`Platform`, `ViewEnv`, `PrefStore`) so that the Python
control flow of browser.py can be translated directly.
-/

namespace SafBrowser

/-- Android `Document.MIME_TYPE_DIR`, the provider's directory sentinel
(`vnd.android.document/directory`), compared against at browser.py line 179. -/
def MIME_TYPE_DIR : String := "vnd.android.document/directory"

/-- `Browser.OPEN_DIRECTORY_REQUEST_CODE = 0xf11e` (browser.py line 27). -/
def OPEN_DIRECTORY_REQUEST_CODE : Int := 0xf11e

/-- Android `Activity.RESULT_OK` (the value -1), compared against at
browser.py line 54. -/
def RESULT_OK : Int := -1

/-- Android `Intent.FLAG_GRANT_READ_URI_PERMISSION` (the value 0x00000001),
used in the mask at browser.py line 64. -/
def FLAG_GRANT_READ_URI_PERMISSION : Nat := 1

/-- The in-memory view of the SharedPreferences key-value store: the single
key `tree_uri` read by `get_default_tree_uri` (browser.py line 40) and written
by `set_default_tree_uri` (line 48). -/
structure Prefs where
  tree_uri : Option String
  deriving DecidableEq, Repr

/-- The durable preference store together with the behaviour of the platform
when a commit is attempted: Android's `SharedPreferences.Editor.commit()`
reports success or failure of the durable write through its boolean return
value.  `commitSucceeds` says whether such a write goes through. -/
structure PrefStore where
  prefs : Prefs
  commitSucceeds : Bool
  deriving DecidableEq, Repr

/-- One cursor row of the `content_resolver.query` in `list_files`
(browser.py lines 146-153): display name, document id, last-modified epoch
milliseconds (Java long), MIME type and size. -/
structure ProviderChild where
  name : String
  id : String
  last_modified : Int
  mime_type : String
  size : Int
  deriving DecidableEq, Repr

/-- A `JavaException` raised by a provider call during tree resolution or
child listing (e.g. `java.lang.SecurityException` when the grant was
revoked), identified by its Java class name. -/
structure ResolutionError where
  classname : String
  deriving DecidableEq, Repr

/-- The Android platform calls used by `index`/`list_files`:
`DocumentFile.fromTreeUri(...).getUri()` (treeDocUri),
`DocumentsContract.getDocumentId` (getDocumentId),
`DocumentsContract.buildChildDocumentsUriUsingTree` (buildChildrenUri),
`DocumentsContract.buildDocumentUriUsingTree` (buildDocUri), and the
`ContentResolver.query` over the children URI, which either yields the
cursor rows or raises. -/
structure Platform where
  treeDocUri : String → String
  getDocumentId : String → String
  buildChildrenUri : String → String → String
  buildDocUri : String → String → String
  query : String → Except ResolutionError (List ProviderChild)

/-- One entry built by `Browser.list_files` (browser.py lines 147-158):
the cursor row fields plus the document URI built with
`buildDocumentUriUsingTree`. -/
structure Entry where
  name : String
  id : String
  last_modified : Int
  mime_type : String
  size : Int
  uri : String
  deriving DecidableEq, Repr

/-- A directory entry as rendered by `index` (browser.py lines 180-183). -/
structure DirEntry where
  name : String
  uri : String
  deriving DecidableEq, Repr

/-- A file entry as rendered by `index` (browser.py lines 190-195).
`last_modified` is the instant produced by
`datetime.fromtimestamp(row_millis / 1000)`, represented as (rational)
seconds since the Unix epoch. -/
structure FileEntry where
  name : String
  uri : String
  last_modified : Rat
  size : Int
  deriving DecidableEq, Repr

/-- The `content` value handed to `render_template` by `index`: either the
empty dict `{}` (browser.py line 204) or the listing dict with `name`,
`directories` and `files` (lines 198-202). -/
inductive Content where
  | empty : Content
  | listing (name : String) (directories : List DirEntry) (files : List FileEntry) : Content
  deriving DecidableEq, Repr

/-- The body of an HTTP response produced by the routes: a rendered
`index.html` page over a `content` structure, a plain text body, or the raw
bytes returned by the inline-view branch of the `/view` route. -/
inductive Body where
  | page (content : Content) : Body
  | text (s : String) : Body
  | bytesBody (b : List Nat) : Body
  deriving DecidableEq, Repr

/-- An HTTP response: body and status code. -/
structure Response where
  body : Body
  status : Nat
  deriving DecidableEq, Repr

/-- `Browser.get_default_tree_uri` (browser.py lines 39-42): read the
`tree_uri` key from the preferences, `None` when absent. -/
def Browser.get_default_tree_uri (store : PrefStore) : Option String :=
  store.prefs.tree_uri

/-- `Browser.set_default_tree_uri` (browser.py lines 44-49):
`editor.putString('tree_uri', uri); editor.commit()`.  The boolean is the
return value of `SharedPreferences.Editor.commit()`, true iff the new value
was written to durable storage; the store is updated exactly when the commit
succeeds. -/
def Browser.set_default_tree_uri (store : PrefStore) (uri : String) :
    PrefStore × Bool :=
  if store.commitSucceeds then
    ({ store with prefs := { tree_uri := some uri } }, true)
  else
    (store, false)

/-- The platform side effects issued by `on_activity_result` besides the
preference write: `ContentResolver.takePersistableUriPermission(uri, flags)`
(browser.py line 65) and `activity.loadUrl(url)` (line 69). -/
inductive Effect where
  | takePersistablePermission (uri : String) (flags : Nat) : Effect
  | loadUrl (url : String) : Effect
  deriving DecidableEq, Repr

/-- `url_for('index', uri=uri)` (browser.py line 68): the root-listing URL
carrying the tree URI as the `uri` query parameter (percent-encoding of the
parameter by the web framework is abstracted). -/
def url_for_index (uri : String) : String := "/?uri=" ++ uri

/-- The fields of the `Intent` delivered to `on_activity_result` that the
code uses: `getData().toString()` (the chosen tree URI) and `getFlags()`. -/
structure IntentData where
  dataUri : String
  flags : Nat
  deriving DecidableEq, Repr

/-- `Browser.on_activity_result` (browser.py lines 51-69), as a function from
the preference store and the delivered `(request, result, intent)` triple to
the new store and the list of platform effects issued.  The code returns
early (no effects) unless `request == OPEN_DIRECTORY_REQUEST_CODE`,
`result == RESULT_OK` and the intent is present; otherwise it persists the
chosen URI (discarding the commit result), takes a persistable permission
with the flags masked to `FLAG_GRANT_READ_URI_PERMISSION`, and navigates to
`url_for('index', uri=uri)`. -/
def Browser.on_activity_result (store : PrefStore) (req result : Int)
    (intent : Option IntentData) : PrefStore × List Effect :=
  if req = OPEN_DIRECTORY_REQUEST_CODE then
    if result ≠ RESULT_OK ∨ intent = none then
      (store, [])
    else
      match intent with
      | none => (store, [])
      | some it =>
        let uri := it.dataUri
        let (store2, _committed) := Browser.set_default_tree_uri store uri
        let flags := it.flags &&& FLAG_GRANT_READ_URI_PERMISSION
        (store2, [Effect.takePersistablePermission uri flags,
                  Effect.loadUrl (url_for_index uri)])
  else
    (store, [])

/-- Builds one entry of `Browser.list_files` from a cursor row
(browser.py lines 147-157): the row fields plus
`buildDocumentUriUsingTree(tree_doc_uri, id)`. -/
def entryOf (p : Platform) (tree_doc_uri : String) (row : ProviderChild) : Entry :=
  { name := row.name
    id := row.id
    last_modified := row.last_modified
    mime_type := row.mime_type
    size := row.size
    uri := p.buildDocUri tree_doc_uri row.id }

/-- `Browser.list_files` (browser.py lines 129-160): build the children URI
from the tree document URI and its document id, query the provider, and map
each cursor row to an `Entry`.  A provider exception propagates. -/
def Browser.list_files (p : Platform) (tree_doc_uri : String) :
    Except ResolutionError (List Entry) :=
  let tree_doc_id := p.getDocumentId tree_doc_uri
  let children_uri := p.buildChildrenUri tree_doc_uri tree_doc_id
  (p.query children_uri).map (fun rows => rows.map (entryOf p tree_doc_uri))

/-- Python truthiness of the optional `uri` string used at browser.py
lines 170 and 173: `None` and the empty string are falsy. -/
def truthy : Option String → Bool
  | none => false
  | some s => !s.isEmpty

/-- Lines 169-173 of `index`: take the `uri` query parameter; if it is falsy
fall back to the persisted default tree URI; the result is the handle that
line 173's `if uri:` tests, `none` when that test fails. -/
def effectiveUri (uriParam : Option String) (store : PrefStore) : Option String :=
  let uri := if truthy uriParam then uriParam else Browser.get_default_tree_uri store
  if truthy uri then uri else none

/-- The directory dict appended at browser.py lines 180-183. -/
def mkDirEntry (doc : Entry) : DirEntry :=
  { name := doc.name, uri := doc.uri }

/-- The file dict appended at browser.py lines 187-195:
`last_modified = datetime.fromtimestamp(doc['last_modified'] / 1000)`, the
instant `millis / 1000` seconds after the Unix epoch; `size` unchanged. -/
def mkFileEntry (doc : Entry) : FileEntry :=
  { name := doc.name
    uri := doc.uri
    last_modified := (doc.last_modified : Rat) / 1000
    size := doc.size }

/-- The classification loop of `index` (browser.py lines 178-195): each doc
whose MIME type equals `Document.MIME_TYPE_DIR` goes to `directories`, every
other doc goes to `files`, in order. -/
def splitDocs : List Entry → List DirEntry × List FileEntry
  | [] => ([], [])
  | doc :: rest =>
    let (directories, files) := splitDocs rest
    if doc.mime_type = MIME_TYPE_DIR then
      (mkDirEntry doc :: directories, files)
    else
      (directories, mkFileEntry doc :: files)

/-- The `index` route handler (browser.py lines 167-209) as the response it
produces: with no effective handle, the empty content is rendered with
status 200; otherwise the tree document URI is resolved, the children are
listed (a `ResolutionError` from the provider propagates uncaught — there is
no try/except in `index`), classified, and rendered with status 200. -/
def index (p : Platform) (store : PrefStore) (uriParam : Option String) :
    Except ResolutionError Response :=
  match effectiveUri uriParam store with
  | none => Except.ok { body := Body.page Content.empty, status := 200 }
  | some uri =>
    let tree_doc_uri := p.treeDocUri uri
    match Browser.list_files p tree_doc_uri with
    | Except.error e => Except.error e
    | Except.ok docs =>
      let (directories, files) := splitDocs docs
      let name := p.getDocumentId tree_doc_uri
      Except.ok { body := Body.page (Content.listing name directories files),
                  status := 200 }

/-- The `index` route handler together with the preference store it leaves
behind: `index` only reads the store (`get_default_tree_uri`), never writes. -/
def index_route (p : Platform) (store : PrefStore) (uriParam : Option String) :
    Except ResolutionError Response × PrefStore :=
  (index p store uriParam, store)

/-- The outcome of `activity.startActivity(intent)` inside
`Browser.view_file` (browser.py line 84): success, or a `JavaException`
identified by its Java class name. -/
inductive StartViewResult where
  | ok : StartViewResult
  | raised (classname : String) : StartViewResult

/-- The platform calls used by the `/view` route: starting an ACTION_VIEW
activity, `DocumentFile.fromSingleUri(...).getType()` (`None` when the
provider reports no type), and the full byte content delivered by
`open_file(uri, 'rb').read()`. -/
structure ViewEnv where
  startView : String → StartViewResult
  getType : String → Option String
  fileBytes : String → List Nat

/-- `Browser.view_file` (browser.py lines 78-89): start an external viewer;
`True` on success; a `JavaException` of class
`android.content.ActivityNotFoundException` is caught and yields `False`;
any other exception is re-raised. -/
def Browser.view_file (env : ViewEnv) (uri : String) : Except String Bool :=
  match env.startView uri with
  | StartViewResult.ok => Except.ok true
  | StartViewResult.raised classname =>
    if classname = "android.content.ActivityNotFoundException" then
      Except.ok false
    else
      Except.error classname

/-- The `text_doc_types` tuple of the `/view` route (browser.py
lines 230-233). -/
def text_doc_types : List String := ["application/json", "text/plain"]

/-- The `doc_type in text_doc_types` test (browser.py line 235); in Python a
`None` doc_type is simply not in the tuple. -/
def inTextDocTypes : Option String → Bool
  | some t => text_doc_types.contains t
  | none => false

/-- The `view_file` route handler (browser.py lines 218-240) as the response
it produces: 400 without a `uri` parameter; 204 when the external viewer is
started; otherwise classify the file and, for an allow-listed MIME type,
return the raw bytes of `open_file(uri, 'rb').read()` with status 200 (note:
the bytes are returned as-is, no UTF-8 decoding happens); otherwise 415.  An
exception other than `ActivityNotFoundException` propagates. -/
def view_file (env : ViewEnv) (uriParam : Option String) :
    Except String Response :=
  match uriParam with
  | none => Except.ok { body := Body.text "No uri argument specified", status := 400 }
  | some uri =>
    match Browser.view_file env uri with
    | Except.error c => Except.error c
    | Except.ok true => Except.ok { body := Body.text "", status := 204 }
    | Except.ok false =>
      let doc_type := env.getType uri
      if inTextDocTypes doc_type then
        Except.ok { body := Body.bytesBody (env.fileBytes uri), status := 200 }
      else
        Except.ok { body := Body.text "Cannot view file", status := 415 }

/-- The `view_file` route handler together with the preference store it
leaves behind: the route never touches the store. -/
def view_file_route (env : ViewEnv) (store : PrefStore) (uriParam : Option String) :
    Except String Response × PrefStore :=
  (view_file env uriParam, store)

/-- A UTF-8 continuation byte (10xxxxxx). -/
def isCont (b : Nat) : Bool := 0x80 ≤ b && b ≤ 0xBF

/-- Strict UTF-8 validity of a byte list (RFC 3629, as enforced by Python's
`bytes.decode('utf-8')`): rejects overlong encodings, surrogates and code
points above U+10FFFF.  A byte list is the UTF-8 encoding of some text iff
this holds. -/
def validUtf8 : List Nat → Bool
  | [] => true
  | b0 :: rest =>
    if b0 ≤ 0x7F then
      validUtf8 rest
    else if 0xC2 ≤ b0 && b0 ≤ 0xDF then
      match rest with
      | b1 :: r => isCont b1 && validUtf8 r
      | [] => false
    else if b0 = 0xE0 then
      match rest with
      | b1 :: b2 :: r => (0xA0 ≤ b1 && b1 ≤ 0xBF) && isCont b2 && validUtf8 r
      | _ => false
    else if (0xE1 ≤ b0 && b0 ≤ 0xEC) || b0 = 0xEE || b0 = 0xEF then
      match rest with
      | b1 :: b2 :: r => isCont b1 && isCont b2 && validUtf8 r
      | _ => false
    else if b0 = 0xED then
      match rest with
      | b1 :: b2 :: r => (0x80 ≤ b1 && b1 ≤ 0x9F) && isCont b2 && validUtf8 r
      | _ => false
    else if b0 = 0xF0 then
      match rest with
      | b1 :: b2 :: b3 :: r =>
        (0x90 ≤ b1 && b1 ≤ 0xBF) && isCont b2 && isCont b3 && validUtf8 r
      | _ => false
    else if 0xF1 ≤ b0 && b0 ≤ 0xF3 then
      match rest with
      | b1 :: b2 :: b3 :: r => isCont b1 && isCont b2 && isCont b3 && validUtf8 r
      | _ => false
    else if b0 = 0xF4 then
      match rest with
      | b1 :: b2 :: b3 :: r =>
        (0x80 ≤ b1 && b1 ≤ 0x8F) && isCont b2 && isCont b3 && validUtf8 r
      | _ => false
    else
      false

/-- Days since 1970-01-01 of a proleptic Gregorian calendar date
(civil-from-days inverse, Hinnant's algorithm). -/
def daysFromCivil (y : Int) (m : Int) (d : Int) : Int :=
  let y2 : Int := if m ≤ 2 then y - 1 else y
  let era : Int := (if 0 ≤ y2 then y2 else y2 - 399) / 400
  let yoe : Int := y2 - era * 400
  let mp : Int := (m + 9) % 12
  let doy : Int := (153 * mp + 2) / 5 + d - 1
  let doe : Int := yoe * 365 + yoe / 4 - yoe / 100 + doy
  era * 146097 + doe - 719468

/-- Seconds since the Unix epoch of a UTC instant given by calendar fields. -/
def epochSecondsOfUtc (y m d hh mm ss : Int) : Int :=
  daysFromCivil y m d * 86400 + hh * 3600 + mm * 60 + ss

/-- A concrete platform whose child query raises
`java.lang.SecurityException`, as a revoked grant does. -/
def platformC1 : Platform :=
  { treeDocUri := id
    getDocumentId := id
    buildChildrenUri := fun t _ => t
    buildDocUri := fun _ i => i
    query := fun _ => Except.error { classname := "java.lang.SecurityException" } }

/-- A store holding a persisted grant for the tree `tree:42`. -/
def storeGrant42 : PrefStore :=
  { prefs := { tree_uri := some "tree:42" }, commitSucceeds := true }

/-- A view environment where no external viewer is registered, the file is
classified `text/plain`, and its content is the five bytes of `hello`. -/
def envC2 : ViewEnv :=
  { startView := fun _ => StartViewResult.raised "android.content.ActivityNotFoundException"
    getType := fun _ => some "text/plain"
    fileBytes := fun _ => [104, 101, 108, 108, 111] }

/-- Like `envC2` but the file content is the bytes `[104, 255]`, which are
not valid UTF-8. -/
def envC2bad : ViewEnv :=
  { envC2 with fileBytes := fun _ => [104, 255] }

/-- An empty preference store whose commits succeed. -/
def storeEmpty : PrefStore :=
  { prefs := { tree_uri := none }, commitSucceeds := true }

/-- A concrete platform serving one file row and one directory row, as in
the spec's scenario (a.txt of 10 bytes modified at epoch-millis
1700000000000, and the subdirectory `sub`). -/
def platformC6 : Platform :=
  { treeDocUri := id
    getDocumentId := id
    buildChildrenUri := fun t _ => t
    buildDocUri := fun _ i => i
    query := fun _ => Except.ok
      [{ name := "a.txt", id := "doc:1", last_modified := 1700000000000,
         mime_type := "text/plain", size := 10 },
       { name := "sub", id := "doc:2", last_modified := 0,
         mime_type := "vnd.android.document/directory", size := 0 }] }

/-- An empty preference store whose durable commits fail
(`SharedPreferences.Editor.commit()` returns false). -/
def storeCommitFails : PrefStore :=
  { prefs := { tree_uri := none }, commitSucceeds := false }

/-- A platform serving a single `text/plain` file row. -/
def platformC8plain : Platform :=
  { treeDocUri := id
    getDocumentId := id
    buildChildrenUri := fun t _ => t
    buildDocUri := fun _ i => i
    query := fun _ => Except.ok
      [{ name := "a.txt", id := "doc:1", last_modified := 1700000000000,
         mime_type := "text/plain", size := 10 }] }

/-- Like `platformC8plain` but the single row's MIME type is
`application/json` instead of `text/plain`. -/
def platformC8json : Platform :=
  { platformC8plain with
    query := fun _ => Except.ok
      [{ name := "a.txt", id := "doc:1", last_modified := 1700000000000,
         mime_type := "application/json", size := 10 }] }

/- ------------------------------------------------------------------ -/
/- Theorems                                                           -/
/- ------------------------------------------------------------------ -/

/-- The classification loop equals filtering by the directory sentinel:
directories are exactly the docs whose MIME type is the sentinel, files are
exactly the rest, each in input order. -/
theorem splitDocs_eq (docs : List Entry) :
    splitDocs docs =
      ((docs.filter fun d => d.mime_type = MIME_TYPE_DIR).map mkDirEntry,
       (docs.filter fun d => d.mime_type ≠ MIME_TYPE_DIR).map mkFileEntry) := by
  induction docs with
  | nil => rfl
  | cons d rest ih =>
    by_cases h : d.mime_type = MIME_TYPE_DIR <;>
      simp [splitDocs, ih, List.filter_cons, h]

/-- C3: for every authorization callback whose request code matches, whose
result is `RESULT_OK` and whose intent (granted handle) is present, the
callback persists the granted tree URI as the new Grant (given the store
commit succeeds), takes a persistable permission with the granted flags
masked to `FLAG_GRANT_READ_URI_PERMISSION`, and navigates to the
root-listing URL parameterized by the granted URI. -/
theorem c3_success_persists_and_redirects (store : PrefStore) (req result : Int)
    (it : IntentData) (hreq : req = OPEN_DIRECTORY_REQUEST_CODE)
    (hres : result = RESULT_OK) (hcommit : store.commitSucceeds = true) :
    Browser.on_activity_result store req result (some it) =
      ({ store with prefs := { tree_uri := some it.dataUri } },
       [Effect.takePersistablePermission it.dataUri
          (it.flags &&& FLAG_GRANT_READ_URI_PERMISSION),
        Effect.loadUrl (url_for_index it.dataUri)]) := by
  subst hreq hres
  simp [Browser.on_activity_result, Browser.set_default_tree_uri, hcommit]

/-- Witness for C3 at a concrete successful callback. -/
theorem c3_witness :
    Browser.on_activity_result storeEmpty OPEN_DIRECTORY_REQUEST_CODE RESULT_OK
        (some { dataUri := "content://tree/42", flags := 3 }) =
      ({ prefs := { tree_uri := some "content://tree/42" }, commitSucceeds := true },
       [Effect.takePersistablePermission "content://tree/42" 1,
        Effect.loadUrl "/?uri=content://tree/42"]) := by
  simpa using c3_success_persists_and_redirects storeEmpty
    OPEN_DIRECTORY_REQUEST_CODE RESULT_OK
    { dataUri := "content://tree/42", flags := 3 } rfl rfl rfl

/-- C4: an authorization callback whose request code differs from
`OPEN_DIRECTORY_REQUEST_CODE` is a complete no-op: the store is unchanged
and no platform effect is issued. -/
theorem c4_mismatched_request_noop (store : PrefStore) (req result : Int)
    (intent : Option IntentData) (hreq : req ≠ OPEN_DIRECTORY_REQUEST_CODE) :
    Browser.on_activity_result store req result intent = (store, []) := by
  simp [Browser.on_activity_result, hreq]

/-- Witness for C4 at request code 0. -/
theorem c4_witness :
    Browser.on_activity_result storeEmpty 0 RESULT_OK
        (some { dataUri := "content://tree/42", flags := 1 }) = (storeEmpty, []) :=
  c4_mismatched_request_noop storeEmpty 0 RESULT_OK
    (some { dataUri := "content://tree/42", flags := 1 }) (by decide)

/-- C5: a matching callback whose result is not `RESULT_OK` or whose intent
is absent is a silent no-op: the store is unchanged and no effect (hence no
user-visible error) is produced. -/
theorem c5_cancel_noop (store : PrefStore) (result : Int)
    (intent : Option IntentData) (h : result ≠ RESULT_OK ∨ intent = none) :
    Browser.on_activity_result store OPEN_DIRECTORY_REQUEST_CODE result intent =
      (store, []) := by
  unfold Browser.on_activity_result
  rw [if_pos rfl, if_pos h]

/-- Witness for C5 at `RESULT_CANCELED` (result code 0). -/
theorem c5_witness :
    Browser.on_activity_result storeEmpty OPEN_DIRECTORY_REQUEST_CODE 0
        (some { dataUri := "content://tree/42", flags := 1 }) = (storeEmpty, []) :=
  c5_cancel_noop storeEmpty 0
    (some { dataUri := "content://tree/42", flags := 1 }) (Or.inl (by decide))

/-- C9: a `GET /` request with no `uri` parameter and no persisted Grant
yields status 200 with the empty content structure. -/
theorem c9_no_handle_empty_render (p : Platform) (store : PrefStore)
    (h : store.prefs.tree_uri = none) :
    (index_route p store none).1 =
      Except.ok { body := Body.page Content.empty, status := 200 } := by
  simp [index_route, index, effectiveUri, truthy, Browser.get_default_tree_uri, h]

/-- Witness for C9 at a concrete platform and empty store. -/
theorem c9_witness :
    (index_route platformC6 storeEmpty none).1 =
      Except.ok { body := Body.page Content.empty, status := 200 } :=
  c9_no_handle_empty_render platformC6 storeEmpty rfl

/-- C10: handling `GET /` and `GET /view` never writes the preference
store: both routes hand back the store exactly as received, for every
platform, store and query parameter. -/
theorem c10_routes_preserve_store (p : Platform) (store : PrefStore)
    (q : Option String) (env : ViewEnv) (u : Option String) :
    (index_route p store q).2 = store ∧ (view_file_route env store u).2 = store :=
  ⟨rfl, rfl⟩

/-- C1 counterexample: with a persisted grant and a provider that raises
`java.lang.SecurityException` during the child listing, `GET /` does not
render a 200 empty-content page — the exception propagates out of the
handler (there is no try/except in `index`, so Flask would serve its 500
error page). -/
theorem c1_counterexample :
    (index_route platformC1 storeGrant42 none).1 =
      Except.error { classname := "java.lang.SecurityException" } := rfl

/-- C1 amended: whenever the effective handle resolves and the provider's
child query raises a `ResolutionError`, the `index` handler propagates that
error uncaught (no 200 empty-content render); only the absence of any
handle produces the empty-content 200 render. -/
theorem c1_resolution_error_propagates (p : Platform) (store : PrefStore)
    (q : Option String) (u : String) (e : ResolutionError)
    (hu : effectiveUri q store = some u)
    (hq : p.query (p.buildChildrenUri (p.treeDocUri u)
            (p.getDocumentId (p.treeDocUri u))) = Except.error e) :
    (index_route p store q).1 = Except.error e := by
  simp [index_route, index, hu, Browser.list_files, hq, Except.map]

/-- Witness for the amended C1 at a concrete revoked-grant platform. -/
theorem c1_witness :
    (index_route platformC1 storeGrant42 (some "tree:7")).1 =
      Except.error { classname := "java.lang.SecurityException" } :=
  c1_resolution_error_propagates platformC1 storeGrant42 (some "tree:7")
    "tree:7" { classname := "java.lang.SecurityException" } rfl rfl

/-- C2 counterexample: with no external viewer and MIME type `text/plain`,
a file whose bytes `[104, 255]` are not valid UTF-8 is still answered with
status 200 and those raw bytes as the body — no UTF-8 decoding takes place
(the file is opened in binary mode), so the body is not "the decoded text". -/
theorem c2_counterexample :
    (view_file_route envC2bad storeEmpty (some "doc:6")).1 =
        Except.ok { body := Body.bytesBody [104, 255], status := 200 } ∧
      validUtf8 [104, 255] = false :=
  ⟨rfl, rfl⟩

/-- C2 amended: when the external view attempt returns false and the
classified MIME type is in the allow-list, the handler reads the file's
full content in binary mode and returns status 200 with the raw bytes as
the body (no UTF-8 decoding; for a valid-UTF-8 file these bytes are the
UTF-8 encoding of its text). -/
theorem c2_inline_raw_bytes (env : ViewEnv) (store : PrefStore) (uri t : String)
    (hext : Browser.view_file env uri = Except.ok false)
    (ht : env.getType uri = some t)
    (hallow : t ∈ text_doc_types) :
    (view_file_route env store (some uri)).1 =
      Except.ok { body := Body.bytesBody (env.fileBytes uri), status := 200 } := by
  simp [view_file_route, view_file, hext, inTextDocTypes, ht, hallow]

/-- Witness for the amended C2 at a concrete `hello` text file. -/
theorem c2_witness :
    (view_file_route envC2 storeEmpty (some "doc:6")).1 =
      Except.ok { body := Body.bytesBody [104, 101, 108, 108, 111], status := 200 } :=
  c2_inline_raw_bytes envC2 storeEmpty "doc:6" "text/plain" rfl rfl
    (by simp [text_doc_types])

/-- C6: in a root listing over provider rows, the rendered directories are
exactly the entries whose provider-reported MIME type equals the directory
sentinel `MIME_TYPE_DIR`, and the rendered files are exactly all the other
entries, regardless of their names — classification is by the sentinel
alone. -/
theorem c6_classification_by_sentinel (p : Platform) (store : PrefStore)
    (q : Option String) (u : String) (rows : List ProviderChild)
    (hu : effectiveUri q store = some u)
    (hq : p.query (p.buildChildrenUri (p.treeDocUri u)
            (p.getDocumentId (p.treeDocUri u))) = Except.ok rows) :
    (index_route p store q).1 =
      Except.ok
        { body := Body.page (Content.listing (p.getDocumentId (p.treeDocUri u))
            (((rows.map (entryOf p (p.treeDocUri u))).filter
                (fun d => d.mime_type = MIME_TYPE_DIR)).map mkDirEntry)
            (((rows.map (entryOf p (p.treeDocUri u))).filter
                (fun d => d.mime_type ≠ MIME_TYPE_DIR)).map mkFileEntry))
          status := 200 } := by
  simp [index_route, index, hu, Browser.list_files, hq, splitDocs_eq,
        Except.map, decide_not]

/-- Witness for C6: the spec's scenario with one text file and one
subdirectory, classified by the sentinel only. -/
theorem c6_witness :
    (index_route platformC6 storeGrant42 none).1 =
      Except.ok
        { body := Body.page (Content.listing "tree:42"
            [{ name := "sub", uri := "doc:2" }]
            [{ name := "a.txt", uri := "doc:1",
               last_modified := 1700000000, size := 10 }])
          status := 200 } := by
  have h := c6_classification_by_sentinel platformC6 storeGrant42 none
    "tree:42" [{ name := "a.txt", id := "doc:1", last_modified := 1700000000000,
                 mime_type := "text/plain", size := 10 },
               { name := "sub", id := "doc:2", last_modified := 0,
                 mime_type := "vnd.android.document/directory", size := 0 }]
    rfl rfl
  rw [h]
  simp [platformC6, entryOf, mkDirEntry, mkFileEntry, MIME_TYPE_DIR]
  norm_num

/-- C7 counterexample: a successful authorization callback whose durable
commit fails (the store's commit reports false) completes normally anyway:
the Grant is left unset, yet the permission is taken and the redirect is
issued — the persistence failure is silently swallowed, not propagated. -/
theorem c7_counterexample :
    Browser.on_activity_result storeCommitFails OPEN_DIRECTORY_REQUEST_CODE
        RESULT_OK (some { dataUri := "content://tree/42", flags := 1 }) =
      (storeCommitFails,
       [Effect.takePersistablePermission "content://tree/42" 1,
        Effect.loadUrl "/?uri=content://tree/42"]) := rfl

/-- C7 amended: a persistence failure reported through the boolean result
of the store's commit is ignored by the callback — the code discards
`editor.commit()`'s return value, leaves the Grant unchanged, and still
proceeds to take the persistable permission and issue the redirect.  (Only
an exception raised by a platform call would propagate, since there is no
try/except in the callback.) -/
theorem c7_commit_failure_swallowed (store : PrefStore) (it : IntentData)
    (h : store.commitSucceeds = false) :
    Browser.on_activity_result store OPEN_DIRECTORY_REQUEST_CODE RESULT_OK
        (some it) =
      (store,
       [Effect.takePersistablePermission it.dataUri
          (it.flags &&& FLAG_GRANT_READ_URI_PERMISSION),
        Effect.loadUrl (url_for_index it.dataUri)]) := by
  simp [Browser.on_activity_result, Browser.set_default_tree_uri, h]

/-- Witness for the amended C7 at a concrete failing store. -/
theorem c7_witness :
    Browser.on_activity_result storeCommitFails OPEN_DIRECTORY_REQUEST_CODE
        RESULT_OK (some { dataUri := "content://tree/9", flags := 3 }) =
      (storeCommitFails,
       [Effect.takePersistablePermission "content://tree/9" 1,
        Effect.loadUrl "/?uri=content://tree/9"]) := by
  simpa using c7_commit_failure_swallowed storeCommitFails
    { dataUri := "content://tree/9", flags := 3 } rfl

/-- C8 counterexample: two root listings over rows that differ only in the
file's MIME type (`text/plain` vs `application/json`) produce identical
responses — the rendered file entry carries name, uri, last_modified and
size but no MIME type, so the MIME type is not passed through to the file
entry. -/
theorem c8_counterexample :
    (index_route platformC8plain storeGrant42 none).1 =
        Except.ok
          { body := Body.page (Content.listing "tree:42" []
              [{ name := "a.txt", uri := "doc:1",
                 last_modified := 1700000000, size := 10 }])
            status := 200 } ∧
      (index_route platformC8json storeGrant42 none).1 =
        (index_route platformC8plain storeGrant42 none).1 := by
  constructor
  · simp [index_route, index, effectiveUri, truthy,
          Browser.get_default_tree_uri, storeGrant42, platformC8plain,
          Browser.list_files, Except.map, splitDocs, entryOf, mkDirEntry,
          mkFileEntry, MIME_TYPE_DIR]
    norm_num
    rfl
  · rfl

/-- C8 amended: every non-directory provider row yields, in the listing's
files, an entry whose `last_modified` is the provider epoch-milliseconds
divided by 1000 (seconds since the epoch; 1700000000000 ms is the instant
2023-11-14T22:13:20Z) and whose `size` is passed through unchanged; the
MIME type is consumed only for classification and is not part of the file
entry. -/
theorem c8_file_metadata (p : Platform) (t : String)
    (rows : List ProviderChild) (row : ProviderChild)
    (hmem : row ∈ rows) (hdir : ¬ row.mime_type = MIME_TYPE_DIR) :
    ({ name := row.name, uri := p.buildDocUri t row.id,
       last_modified := (row.last_modified : Rat) / 1000,
       size := row.size } : FileEntry) ∈
        (splitDocs (rows.map (entryOf p t))).2 ∧
      (1700000000000 : Rat) / 1000 =
        ((epochSecondsOfUtc 2023 11 14 22 13 20 : Int) : Rat) := by
  constructor
  · rw [splitDocs_eq]
    have h1 : entryOf p t row ∈ rows.map (entryOf p t) :=
      List.mem_map_of_mem (entryOf p t) hmem
    have h2 : entryOf p t row ∈
        (rows.map (entryOf p t)).filter (fun d => d.mime_type ≠ MIME_TYPE_DIR) := by
      rw [List.mem_filter]
      exact ⟨h1, by simp [entryOf, hdir]⟩
    have h3 := List.mem_map_of_mem mkFileEntry h2
    simpa [mkFileEntry, entryOf] using h3
  · have he : epochSecondsOfUtc 2023 11 14 22 13 20 = 1700000000 := by
      norm_num [epochSecondsOfUtc, daysFromCivil]
    rw [he]
    norm_num

/-- Witness for the amended C8 at the spec's sample row. -/
theorem c8_witness :
    ({ name := "a.txt", uri := "doc:1",
       last_modified := (1700000000000 : Rat) / 1000,
       size := 10 } : FileEntry) ∈
        (splitDocs
          ([{ name := "a.txt", id := "doc:1", last_modified := 1700000000000,
              mime_type := "text/plain", size := 10 }].map
            (entryOf platformC8plain "tree:42"))).2 := by
  have h := c8_file_metadata platformC8plain "tree:42"
    [{ name := "a.txt", id := "doc:1", last_modified := 1700000000000,
       mime_type := "text/plain", size := 10 }]
    { name := "a.txt", id := "doc:1", last_modified := 1700000000000,
      mime_type := "text/plain", size := 10 }
    (List.mem_singleton.mpr rfl) (by decide)
  simpa [platformC8plain] using h.1

end SafBrowser
